import Mathlib

/-!
A shallow embedding of the J1939 CAN socket layer (net/can/j1939/socket.c)
together with theorems settling the frozen claims about it.

Pure predicates (`j1939_sk_match_dst`, `j1939_sk_match_filter`, ...) are
translated directly.  Stateful operations (`j1939_sk_bind`,
`j1939_sk_send_multi`, `j1939_sk_sendmsg`) are translated as explicit
state-passing functions; the external collaborators (network device lookup,
local-ECU registry, transport-protocol engine) are represented by result
oracles passed in as arguments, exactly at the call sites where the C code
consults them.
-/

/-! ## Constants

The constants below come from headers that are not part of the repository
snapshot (j1939-priv.h and the uapi can/j1939.h); they are modelled from the
spec where it states them. -/

/-- Modelled from the spec: address family tag for CAN sockets (AF_CAN). -/
def AF_CAN : Nat := 29

/-- Modelled from the spec: "No address" = 0xFE. -/
def J1939_NO_ADDR : Nat := 0xFE

/-- Modelled from the spec: broadcast bus address = 0xFF. -/
def J1939_BROADCAST_ADDR : Nat := 0xFF

/-- Modelled from the spec: PGNs are 18-bit, so the largest valid PGN is 0x3FFFF. -/
def J1939_PGN_MAX : Nat := 0x3FFFF

/-- Modelled from the spec: the "no pgn" placeholder.  The spec states both
that the placeholder is 0x3FFFF and that a PGN receive filter is disabled
whenever it is not a valid (18-bit) PGN; the code requires the placeholder to
be invalid (socket initialisation stores it into pgn_rx_filter to disable the
filter), so the first out-of-range value 0x40000 is used, as in the mainline
uapi header. -/
def J1939_NO_PGN : Nat := 0x40000

/-- Modelled from the spec: maximum payload of one BAM/TP transport-protocol
session, 255 packets of 7 bytes. -/
def J1939_MAX_TP_PACKET_SIZE : Nat := 7 * 255

/-- Modelled from the spec: cap on the number of user filter entries. -/
def J1939_FILTER_MAX : Nat := 512

/-- Modelled from the spec: minimum accepted sockaddr length (size of the
user address structure through the pgn field).  The claims never depend on
the concrete value. -/
def J1939_MIN_NAMELEN : Nat := 24

/-! Errno values (positive; the code returns their negations). -/

def EPERM : Int := 1
def EINTR : Int := 4
def EIO_code : Int := 5
def ENXIO_code : Int := 6
def EAGAIN : Int := 11
def EACCES : Int := 13
def ENODEV : Int := 19
def EINVAL : Int := 22
def EDOM : Int := 33
def EBADFD : Int := 77
def EDESTADDRREQ : Int := 89
def EADDRINUSE : Int := 98
def EADDRNOTAVAIL : Int := 99
def ERESTARTSYS : Int := 512

/-! State-flag bits of `j1939_sock::state` (socket.c:23-27). -/

def J1939_SOCK_BOUND : Nat := 1
def J1939_SOCK_CONNECTED : Nat := 2
def J1939_SOCK_PROMISC : Nat := 4
def J1939_SOCK_RECV_OWN : Nat := 8
def J1939_SOCK_ERRQUEUE : Nat := 16

/-! ## Data model -/

/-- Modelled from the spec: the per-frame / per-endpoint J1939 addressing
metadata block {source NAME, dest NAME, pgn, source addr, dest addr}
(struct j1939_addr of j1939-priv.h, which is not in the snapshot). -/
structure j1939_addr where
  src_name : Nat
  dst_name : Nat
  pgn : Nat
  sa : Nat
  da : Nat
deriving DecidableEq

/-- Modelled from the spec: one user filter entry
{pgn, pgn_mask, addr, addr_mask, name, name_mask}. -/
structure j1939_filter where
  name : Nat
  name_mask : Nat
  pgn : Nat
  pgn_mask : Nat
  addr : Nat
  addr_mask : Nat
deriving DecidableEq

/-- The endpoint record (struct j1939_sock, socket.c:19-45), together with
the two fields of the generic `struct sock` that the J1939 layer reads:
`sk_priority` and the SOCK_BROADCAST flag. -/
structure j1939_sock where
  state : Nat
  ifindex : Nat
  addr : j1939_addr
  filters : List j1939_filter
  pgn_rx_filter : Nat
  etp_tx_complete_size : Nat
  etp_tx_done_size : Nat
  sk_priority : Nat
  sk_broadcast : Bool
deriving DecidableEq

/-- The user-facing address record (struct sockaddr_can restricted to its
J1939 branch: family, ifindex, {name, addr, pgn}). -/
structure SockAddrCan where
  family : Nat
  ifindex : Nat
  name : Nat
  addr : Nat
  pgn : Nat
deriving DecidableEq

/-! ## Priority conversion (socket.c:55-65) -/

/-- j1939_prio, socket.c:55-60: clamp the stored socket priority to 7 and
return its complement against 7. -/
def j1939_prio (sk_priority : Nat) : Nat :=
  7 - min sk_priority 7

/-- j1939_to_sk_priority, socket.c:62-65. -/
def j1939_to_sk_priority (prio : Nat) : Nat :=
  7 - prio

/-! ## Address predicates (socket.c:68-80) -/

/-- j1939_pgn_is_valid, socket.c:68-71. -/
def j1939_pgn_is_valid (pgn : Nat) : Bool :=
  decide (pgn ≤ J1939_PGN_MAX)

/-- Modelled from the spec: PDU1-format test (the helper lives in
j1939-priv.h, not in the snapshot).  Spec: "pgn < 0xF000 ⇒ low byte must
be 0", i.e. a PGN is PDU1-format when it is below 0xF000. -/
def j1939_pgn_is_pdu1 (pgn : Nat) : Bool :=
  decide (pgn < 0xF000)

/-- j1939_pgn_is_clean_pdu, socket.c:74-80. -/
def j1939_pgn_is_clean_pdu (pgn : Nat) : Bool :=
  if j1939_pgn_is_pdu1 pgn then decide (pgn &&& 0xff = 0) else true

/-- Modelled from the spec: unicast test on a destination address; spec §4.A:
"if F.dest_addr is unicast (≠ 0xFF)". -/
def j1939_address_is_unicast (addr : Nat) : Bool :=
  decide (addr ≠ J1939_BROADCAST_ADDR)

/-! ## Inbound match predicates (socket.c:105-174) -/

/-- j1939_sk_match_dst, socket.c:105-151.  Returns true when the frame with
metadata `skcb` passes the endpoint's destination / source / PGN match.
The C function returns early; the early returns are folded into the three
conjuncts dstOk, srcOk, pgnOk. -/
def j1939_sk_match_dst (jsk : j1939_sock) (skcb : j1939_addr) : Bool :=
  if jsk.state &&& J1939_SOCK_PROMISC ≠ 0 then
    true
  else
    -- destination address filter (socket.c:111-129)
    let dstOk : Bool :=
      if jsk.addr.src_name ≠ 0 ∧ skcb.dst_name ≠ 0 then
        jsk.addr.src_name == skcb.dst_name
      else if j1939_address_is_unicast skcb.da then
        jsk.addr.sa == skcb.da
      else
        jsk.sk_broadcast
    -- source address filter (socket.c:131-143)
    let srcOk : Bool :=
      if jsk.state &&& J1939_SOCK_CONNECTED ≠ 0 then
        if jsk.addr.dst_name ≠ 0 ∧ skcb.src_name ≠ 0 then
          jsk.addr.dst_name == skcb.src_name
        else
          jsk.addr.da == skcb.sa
      else
        true
    -- PGN filter (socket.c:145-148)
    let pgnOk : Bool :=
      !(j1939_pgn_is_valid jsk.pgn_rx_filter && jsk.pgn_rx_filter != skcb.pgn)
    dstOk && srcOk && pgnOk

/-- j1939_sk_match_filter, socket.c:154-174: empty list accepts everything,
otherwise some entry must satisfy all three masked equalities. -/
def j1939_sk_match_filter (jsk : j1939_sock) (skcb : j1939_addr) : Bool :=
  if jsk.filters.isEmpty then
    true
  else
    jsk.filters.any fun f =>
      (skcb.pgn &&& f.pgn_mask == f.pgn) &&
      (skcb.sa &&& f.addr_mask == f.addr) &&
      (skcb.src_name &&& f.name_mask == f.name)

/-- The accept/deliver decision of j1939_sk_recv_one, socket.c:176-214:
true exactly when the frame is cloned and queued on this endpoint
(`own` models `oskcb->insock == &jsk->sk`; the clone-allocation failure,
a silent drop, is outside the decision). -/
def j1939_sk_recv_one (jsk : j1939_sock) (skb_ifindex : Nat) (skcb : j1939_addr)
    (own : Bool) : Bool :=
  if jsk.state &&& (J1939_SOCK_BOUND ||| J1939_SOCK_CONNECTED) = 0 then false
  else if jsk.ifindex ≠ skb_ifindex then false
  else if own = true ∧ jsk.state &&& J1939_SOCK_RECV_OWN = 0 then false
  else if j1939_sk_match_dst jsk skcb = false then false
  else if j1939_sk_match_filter jsk skcb = false then false
  else true

/-- The user-filter acceptance predicate exactly as claim C7 words it: the
frame is compared against the entries of the installed list F with the
entry's pgn/addr/name fields taken verbatim (not pre-masked). -/
def j1939_filter_pass_claim (F : List j1939_filter) (skcb : j1939_addr) : Bool :=
  if F.isEmpty then
    true
  else
    F.any fun m =>
      (skcb.pgn &&& m.pgn_mask == m.pgn) &&
      (skcb.sa &&& m.addr_mask == m.addr) &&
      (skcb.src_name &&& m.name_mask == m.name)

/-! ## Socket initialisation (socket.c:227-244) -/

/-- j1939_sk_init, socket.c:227-244: the freshly created endpoint.  The
`struct sock` is zero-initialised by the allocator, then the listed fields
are set. -/
def j1939_sk_init : j1939_sock :=
  { state := 0
    ifindex := 0
    addr := { src_name := 0, dst_name := 0, pgn := J1939_NO_PGN,
              sa := J1939_NO_ADDR, da := J1939_NO_ADDR }
    filters := []
    pgn_rx_filter := J1939_NO_PGN
    etp_tx_complete_size := 0
    etp_tx_done_size := 0
    sk_priority := j1939_to_sk_priority 6
    sk_broadcast := false }

/-! ## Bind / getname lifecycle (socket.c:246-426)

The endpoint together with the observable effects on its external
collaborators: membership in the per-interface socket list and the number of
local-ECU claims currently held on the endpoint's behalf. -/

/-- An endpoint plus the registry facts the invariants talk about. -/
structure EndpointState where
  jsk : j1939_sock
  inList : Bool
  ecuClaims : Int
deriving DecidableEq

/-- Results of the external collaborators consulted by bind:
device lookup, device type, j1939_netdev_start and j1939_local_ecu_get. -/
structure BindEnv where
  ndev_exists : Bool
  ndev_is_can : Bool
  netdev_start_ret : Int
  ecu_get_ret : Int
deriving DecidableEq

/-- j1939_sk_sanity_check, socket.c:246-261. -/
def j1939_sk_sanity_check (addr : Option SockAddrCan) (len : Nat) : Int :=
  match addr with
  | none => -EDESTADDRREQ
  | some a =>
    if len < J1939_MIN_NAMELEN then -EINVAL
    else if a.family ≠ AF_CAN then -EINVAL
    else if a.ifindex = 0 then -ENODEV
    else if j1939_pgn_is_valid a.pgn && !(j1939_pgn_is_clean_pdu a.pgn) then -EINVAL
    else 0

/-- Tail of j1939_sk_bind after the address fields are written,
socket.c:318-332: acquire the local-ECU claim, then (first bind only) link
the socket into the per-interface list and set BOUND. -/
def j1939_sk_bind_finish (st : EndpointState) (env : BindEnv) : Int × EndpointState :=
  if env.ecu_get_ret ≠ 0 then
    (env.ecu_get_ret, st)
  else if st.jsk.state &&& J1939_SOCK_BOUND = 0 then
    (0, { st with
            jsk := { st.jsk with state := st.jsk.state ||| J1939_SOCK_BOUND },
            inList := true,
            ecuClaims := st.ecuClaims + 1 })
  else
    (0, { st with ecuClaims := st.ecuClaims + 1 })

/-- Middle of j1939_sk_bind, socket.c:312-316: record the requested PGN as
receive filter (when valid) and the requested NAME/address as the local
side, then finish. -/
def j1939_sk_bind_common (st : EndpointState) (addr : SockAddrCan) (env : BindEnv) :
    Int × EndpointState :=
  j1939_sk_bind_finish
    { st with jsk :=
        { st.jsk with
            pgn_rx_filter :=
              if j1939_pgn_is_valid addr.pgn then addr.pgn else st.jsk.pgn_rx_filter,
            addr := { st.jsk.addr with src_name := addr.name, sa := addr.addr } } }
    env

/-- j1939_sk_bind, socket.c:263-340.  On the rebind path (already BOUND to
the same interface) the old local-ECU claim is released before the new one
is requested; on the first-bind path the device type is checked and the
per-interface stack instance is started. -/
def j1939_sk_bind (st : EndpointState) (addr : SockAddrCan) (len : Nat) (env : BindEnv) :
    Int × EndpointState :=
  if j1939_sk_sanity_check (some addr) len ≠ 0 then
    (j1939_sk_sanity_check (some addr) len, st)
  else if env.ndev_exists = false then
    (-ENODEV, st)
  else if st.jsk.state &&& J1939_SOCK_BOUND ≠ 0 then
    if st.jsk.ifindex ≠ addr.ifindex then
      (-EINVAL, st)
    else
      j1939_sk_bind_common { st with ecuClaims := st.ecuClaims - 1 } addr env
  else if env.ndev_is_can = false then
    (-ENODEV, st)
  else if env.netdev_start_ret ≠ 0 then
    (env.netdev_start_ret, st)
  else
    j1939_sk_bind_common
      { st with jsk := { st.jsk with ifindex := addr.ifindex } } addr env

/-- j1939_sk_sock2sockaddr_can, socket.c:388-401. -/
def j1939_sk_sock2sockaddr_can (jsk : j1939_sock) (peer : Bool) : SockAddrCan :=
  { family := AF_CAN
    ifindex := jsk.ifindex
    pgn := jsk.addr.pgn
    name := if peer then jsk.addr.dst_name else jsk.addr.src_name
    addr := if peer then jsk.addr.da else jsk.addr.sa }

/-- j1939_sk_getname, socket.c:403-426 (modulo the user-space copy). -/
def j1939_sk_getname (jsk : j1939_sock) (peer : Bool) : Except Int SockAddrCan :=
  if peer = true ∧ jsk.state &&& J1939_SOCK_CONNECTED = 0 then
    .error (-EADDRNOTAVAIL)
  else
    .ok (j1939_sk_sock2sockaddr_can jsk peer)

/-- Effects of j1939_sk_release, socket.c:428-468, on the registry facts:
a BOUND socket is unlinked and its local-ECU claim released. -/
def j1939_sk_release (st : EndpointState) : EndpointState :=
  if st.jsk.state &&& J1939_SOCK_BOUND ≠ 0 then
    { st with inList := false, ecuClaims := st.ecuClaims - 1 }
  else
    st

/-- Effects of j1939_sk_netdev_event, socket.c:1019-1040, on one listed
endpoint: on ENODEV the local-ECU claim is released (the socket stays BOUND
and listed; "do not remove filters here"). -/
def j1939_sk_netdev_event (st : EndpointState) (error_code : Int) : EndpointState :=
  if st.inList = true ∧ error_code = ENODEV then
    { st with ecuClaims := st.ecuClaims - 1 }
  else
    st

/-! ## Option surface (socket.c:488-616), the parts the claims touch -/

/-- The pre-masking applied to each entry on install, socket.c:517-521. -/
def j1939_filter_premask (f : j1939_filter) : j1939_filter :=
  { f with
      name := f.name &&& f.name_mask,
      pgn := f.pgn &&& f.pgn_mask,
      addr := f.addr &&& f.addr_mask }

/-- The SO_J1939_FILTER branch of j1939_sk_setsockopt, socket.c:500-530:
each entry is pre-masked on install, then the whole list is swapped in.
The byte-length divisibility check of the C code is a marshalling artifact;
the entry-count cap is kept. -/
def j1939_sk_setsockopt_filter (jsk : j1939_sock) (ofilters : List j1939_filter) :
    Int × j1939_sock :=
  if J1939_FILTER_MAX < ofilters.length then
    (-EINVAL, jsk)
  else
    (0, { jsk with filters := ofilters.map j1939_filter_premask })

/-- The SO_J1939_SEND_PRIO branch of j1939_sk_setsockopt, socket.c:546-558.
`cap` models capable(CAP_NET_ADMIN). -/
def j1939_sk_setsockopt_send_prio (jsk : j1939_sock) (tmp : Int) (cap : Bool) :
    Int × j1939_sock :=
  if tmp < 0 ∨ 7 < tmp then
    (-EDOM, jsk)
  else if tmp < 2 ∧ cap = false then
    (-EPERM, jsk)
  else
    (0, { jsk with sk_priority := j1939_to_sk_priority tmp.toNat })

/-- The SO_J1939_SEND_PRIO branch of j1939_sk_getsockopt, socket.c:593-595. -/
def j1939_sk_getsockopt_send_prio (jsk : j1939_sock) : Nat :=
  j1939_prio jsk.sk_priority

/-! ## Outbound path (socket.c:826-1017) -/

/-- The destination info optionally supplied in the send call
(msg->msg_name viewed as a sockaddr_can, plus msg_namelen). -/
structure MsgDest where
  namelen : Nat
  family : Nat
  ifindex : Nat
  name : Nat
  addr : Nat
  pgn : Nat
deriving DecidableEq

/-- External facts consulted by j1939_sk_sendmsg after validation:
whether dev_get_by_index and j1939_priv_get_by_ndev succeed. -/
structure SendmsgEnv where
  ndev_exists : Bool
  priv_exists : Bool
deriving DecidableEq

/-- Where a send call ends up: rejected with an error before anything is
queued, dispatched on the single-frame path (j1939_sk_send_one), or on the
segmented transport-protocol path (j1939_sk_send_multi). -/
inductive SendPath where
  | err (e : Int)
  | single
  | multi
deriving DecidableEq

/-- Tail of j1939_sk_sendmsg, socket.c:999-1011: resolve the device and the
per-interface stack instance, then dispatch by payload size. -/
def j1939_sk_sendmsg_dispatch (size : Nat) (env : SendmsgEnv) : SendPath :=
  if env.ndev_exists = false then .err (-ENXIO_code)
  else if env.priv_exists = false then .err (-EINVAL)
  else if 8 < size then .multi
  else .single

/-- j1939_sk_sendmsg, socket.c:950-1017, up to and including the dispatch
decision: the socket-state tests, the validation of a supplied destination,
the broadcast gate, and the size-based dispatch. -/
def j1939_sk_sendmsg_path (jsk : j1939_sock) (dest : Option MsgDest) (size : Nat)
    (env : SendmsgEnv) : SendPath :=
  if jsk.state &&& J1939_SOCK_BOUND = 0 then .err (-EBADFD)
  else if jsk.addr.src_name = 0 ∧ jsk.addr.sa = J1939_NO_ADDR then .err (-EBADFD)
  else
    match dest with
    | some a =>
      if a.namelen < J1939_MIN_NAMELEN then .err (-EINVAL)
      else if a.family ≠ AF_CAN then .err (-EINVAL)
      else if a.ifindex ≠ 0 ∧ a.ifindex ≠ jsk.ifindex then .err (-EBADFD)
      else if j1939_pgn_is_valid a.pgn && !(j1939_pgn_is_clean_pdu a.pgn) then .err (-EINVAL)
      else if a.name = 0 ∧ a.addr = J1939_NO_ADDR ∧ jsk.sk_broadcast = false then
        .err (-EACCES)
      else j1939_sk_sendmsg_dispatch size env
    | none =>
      if jsk.addr.dst_name = 0 ∧ jsk.addr.da = J1939_NO_ADDR ∧ jsk.sk_broadcast = false then
        .err (-EACCES)
      else j1939_sk_sendmsg_dispatch size env

/-- How the segment loop of j1939_sk_send_multi ended: all segments queued
(`completed`), the per-segment allocation failed and the loop broke to the
result switch (`brk`), or the session creation/lookup failed and the
function returned through the kfree_skb path (`abort`). -/
inductive LoopExit where
  | completed
  | brk (e : Int)
  | abort (e : Int)
deriving DecidableEq

/-- Outcome of the segment loop: how it ended, the value of
etp_tx_done_size at that point, and the remaining todo_size. -/
structure LoopOut where
  exit : LoopExit
  done : Nat
  todo : Nat
deriving DecidableEq

/-- The while loop of j1939_sk_send_multi, socket.c:845-900.  `alloc i` is
the result of j1939_sk_alloc_skb for the i-th segment of this call (0 = ok);
`sRet` is the result of the one session creation/lookup the call performs on
its first segment (j1939_tp_send for a fresh datagram,
j1939_session_get_by_skcb mid-datagram; 0 = a session was obtained,
including -ENOENT for the NULL-session case).  `fuel` bounds the recursion;
every iteration consumes at least one byte of `todo`, so any fuel ≥ todo
computes the loop exactly. -/
def send_multi_loop (alloc : Nat → Int) (sRet : Int) (fuel : Nat) (hasSession : Bool)
    (done todo i : Nat) : LoopOut :=
  match fuel with
  | 0 => ⟨.completed, done, todo⟩
  | fuel' + 1 =>
    if todo = 0 then ⟨.completed, done, todo⟩
    else
      let seg := if J1939_MAX_TP_PACKET_SIZE < todo then J1939_MAX_TP_PACKET_SIZE else todo
      if alloc i ≠ 0 then ⟨.brk (alloc i), done, todo⟩
      else if hasSession = false ∧ sRet ≠ 0 then ⟨.abort sRet, done, todo⟩
      else send_multi_loop alloc sRet fuel' true (done + seg) (todo - seg) (i + 1)

/-- The loop of one j1939_sk_send_multi call on endpoint `jsk` with payload
size `size` (todo_size starts at size, done_size at etp_tx_done_size). -/
def send_multi_engine (jsk : j1939_sock) (size : Nat) (alloc : Nat → Int) (sRet : Int) :
    LoopOut :=
  send_multi_loop alloc sRet size false jsk.etp_tx_done_size size 0

/-- Result of j1939_sk_send_multi: the returned value, the endpoint
afterwards, and how many payload bytes were handed to the engine by this
call. -/
structure MultiOut where
  ret : Int
  jsk : j1939_sock
  queued : Nat
deriving DecidableEq

/-- j1939_sk_send_multi, socket.c:826-932.  A fresh datagram
(etp_tx_done_size = 0) records size as etp_tx_complete_size; a continuation
must satisfy complete = done + size or fail with -EIO before anything is
queued.  Then the segment loop runs and the result switch of
socket.c:902-921 is applied; the kfree_skb path of socket.c:928-931
(session failure) resets done_size and returns directly. -/
def j1939_sk_send_multi (jsk : j1939_sock) (size : Nat) (alloc : Nat → Int) (sRet : Int) :
    MultiOut :=
  if jsk.etp_tx_done_size ≠ 0 ∧ jsk.etp_tx_complete_size ≠ jsk.etp_tx_done_size + size then
    ⟨-EIO_code, jsk, 0⟩
  else
    let jsk0 := if jsk.etp_tx_done_size = 0
                then { jsk with etp_tx_complete_size := size } else jsk
    let out := send_multi_engine jsk size alloc sRet
    match out.exit with
    | .abort e => ⟨e, { jsk0 with etp_tx_done_size := 0 }, 0⟩
    | .completed => ⟨(size : Int), { jsk0 with etp_tx_done_size := 0 }, size - out.todo⟩
    | .brk e =>
      if e = -ERESTARTSYS ∨ e = -EAGAIN then
        if out.todo ≠ size then
          ⟨(size : Int) - (out.todo : Int),
           { jsk0 with etp_tx_done_size := out.done }, size - out.todo⟩
        else
          ⟨if e = -ERESTARTSYS then -EINTR else e,
           { jsk0 with etp_tx_done_size := out.done }, size - out.todo⟩
      else
        ⟨e, { jsk0 with etp_tx_done_size := 0 }, size - out.todo⟩

/-! ## Concrete instances used by witnesses and counterexamples -/

/-- A bound promiscuous endpoint with an active PGN receive filter. -/
def promiscJsk : j1939_sock :=
  { j1939_sk_init with
      state := J1939_SOCK_BOUND ||| J1939_SOCK_PROMISC,
      ifindex := 1,
      addr := { j1939_sk_init.addr with sa := 0x10 },
      pgn_rx_filter := 0x100 }

/-- A probe frame whose PGN differs from promiscJsk's receive filter. -/
def probeFrame : j1939_addr :=
  { src_name := 0, dst_name := 0, pgn := 0x200, sa := 0x30, da := 0x11 }

/-- A never-bound endpoint with empty registry facts. -/
def freshEndpoint : EndpointState :=
  { jsk := j1939_sk_init, inList := false, ecuClaims := 0 }

/-- A well-formed bind address with a valid, clean (PDU2) PGN. -/
def bindAddrX : SockAddrCan :=
  { family := AF_CAN, ifindex := 1, name := 77, addr := 0x10, pgn := 0x12300 }

/-- All external bind collaborators succeed. -/
def bindEnvOk : BindEnv :=
  { ndev_exists := true, ndev_is_can := true, netdev_start_ret := 0, ecu_get_ret := 0 }

/-- Bind environment in which the local-ECU acquisition fails. -/
def bindEnvEcuFail : BindEnv :=
  { bindEnvOk with ecu_get_ret := -EADDRINUSE }

/-- Segment allocation succeeding once, then reporting -EAGAIN. -/
def allocAfterFirst : Nat → Int :=
  fun i => if i = 0 then 0 else -EAGAIN

/-- An endpoint mid-datagram: 5 of 12 bytes already queued. -/
def contJsk : j1939_sock :=
  { j1939_sk_init with etp_tx_done_size := 5, etp_tx_complete_size := 12 }

/-- A bound endpoint with a source address and a unicast peer NAME. -/
def boundPeerJsk : j1939_sock :=
  { j1939_sk_init with
      state := J1939_SOCK_BOUND,
      ifindex := 1,
      addr := { src_name := 0, dst_name := 0x123, pgn := J1939_NO_PGN,
                sa := 0x10, da := 0x20 } }

/-- A one-entry filter list whose pgn field is not masked-clean. -/
def filterListF : List j1939_filter :=
  [{ name := 0, name_mask := 0, pgn := 1, pgn_mask := 0, addr := 0, addr_mask := 0 }]

/-- An all-zero probe frame. -/
def filterProbe : j1939_addr :=
  { src_name := 0, dst_name := 0, pgn := 0, sa := 0, da := 0 }

/-- A bound endpoint with no source set (NAME 0, address 0xFE). -/
def noSrcJsk : j1939_sock :=
  { j1939_sk_init with state := J1939_SOCK_BOUND }

/-- A bound endpoint whose bound/connected peer is still the broadcast
placeholder (peer NAME 0, peer address 0xFE). -/
def noPeerJsk : j1939_sock :=
  { j1939_sk_init with
      state := J1939_SOCK_BOUND,
      ifindex := 1,
      addr := { src_name := 5, dst_name := 0, pgn := J1939_NO_PGN,
                sa := 0x10, da := J1939_NO_ADDR } }

/-- A supplied send destination that resolves to broadcast. -/
def bcastDest : MsgDest :=
  { namelen := 24, family := AF_CAN, ifindex := 1, name := 0,
    addr := J1939_NO_ADDR, pgn := J1939_NO_PGN }

/-- The endpoint state after a first successful bind of bindAddrX. -/
def boundEndpoint : EndpointState :=
  (j1939_sk_bind freshEndpoint bindAddrX J1939_MIN_NAMELEN bindEnvOk).2

/-- The rebind of the same address on the same interface, with the
local-ECU acquisition failing. -/
def reboundResult : Int × EndpointState :=
  j1939_sk_bind boundEndpoint bindAddrX J1939_MIN_NAMELEN bindEnvEcuFail

/-! ## Claim C10 -/

/-- C10 (confirmed): a fresh endpoint reports send priority 6, and for every
endpoint state whatsoever the reported send priority is at most 7, because
j1939_prio clamps the stored socket priority to 7 before complementing. -/
theorem j1939_sk_send_prio_default_and_range :
    j1939_sk_getsockopt_send_prio j1939_sk_init = 6 ∧
    ∀ jsk : j1939_sock, j1939_sk_getsockopt_send_prio jsk ≤ 7 := by
  constructor
  · rfl
  · intro jsk
    unfold j1939_sk_getsockopt_send_prio j1939_prio
    omega

/-! ## Claim C9 -/

/-- C9 (confirmed): setsockopt(SEND_PRIO, p) rejects p outside 0..7 with
-EDOM; within range it rejects p < 2 without the privileged capability with
-EPERM; otherwise it stores 7 - p and getsockopt(SEND_PRIO) reads back
exactly p. -/
theorem j1939_sk_setsockopt_send_prio_contract (jsk : j1939_sock) (p : Int) (cap : Bool) :
    ((p < 0 ∨ 7 < p) → j1939_sk_setsockopt_send_prio jsk p cap = (-EDOM, jsk)) ∧
    (0 ≤ p → p ≤ 7 → p < 2 → cap = false →
      j1939_sk_setsockopt_send_prio jsk p cap = (-EPERM, jsk)) ∧
    (0 ≤ p → p ≤ 7 → (2 ≤ p ∨ cap = true) →
      (j1939_sk_setsockopt_send_prio jsk p cap).1 = 0 ∧
      (j1939_sk_setsockopt_send_prio jsk p cap).2.sk_priority = 7 - p.toNat ∧
      ((j1939_sk_getsockopt_send_prio (j1939_sk_setsockopt_send_prio jsk p cap).2 : Nat) : Int)
        = p) := by
  refine ⟨?_, ?_, ?_⟩
  · intro h
    unfold j1939_sk_setsockopt_send_prio
    rw [if_pos h]
  · intro h0 h7 h2 hc
    unfold j1939_sk_setsockopt_send_prio
    rw [if_neg (by omega), if_pos ⟨h2, hc⟩]
  · intro h0 h7 hcap
    have hne : ¬(p < 2 ∧ cap = false) := by
      rcases hcap with h | h
      · intro hx
        obtain ⟨h1, _⟩ := hx
        omega
      · intro hx
        simp [h] at hx
    unfold j1939_sk_setsockopt_send_prio
    rw [if_neg (by omega), if_neg hne]
    refine ⟨rfl, rfl, ?_⟩
    simp only [j1939_sk_getsockopt_send_prio, j1939_prio, j1939_to_sk_priority]
    omega

/-- C9 witness: the contract applied at p = 4 with no capability. -/
theorem j1939_sk_setsockopt_send_prio_contract_witness :
    (j1939_sk_setsockopt_send_prio j1939_sk_init 4 false).1 = 0 ∧
    (j1939_sk_setsockopt_send_prio j1939_sk_init 4 false).2.sk_priority = 3 ∧
    ((j1939_sk_getsockopt_send_prio (j1939_sk_setsockopt_send_prio j1939_sk_init 4 false).2
        : Nat) : Int) = 4 :=
  (j1939_sk_setsockopt_send_prio_contract j1939_sk_init 4 false).2.2
    (by decide) (by decide) (Or.inl (by decide))

/-! ## Claim C5 -/

/-- C5 (confirmed): a continuation call (done_size > 0) whose size does not
complete the datagram fails with -EIO, queues no segment, and leaves the
endpoint, done_size and expected_total_size included, unchanged. -/
theorem j1939_sk_send_multi_continuation_mismatch (jsk : j1939_sock) (size : Nat)
    (alloc : Nat → Int) (sRet : Int)
    (hdone : jsk.etp_tx_done_size ≠ 0)
    (hmismatch : jsk.etp_tx_complete_size ≠ jsk.etp_tx_done_size + size) :
    j1939_sk_send_multi jsk size alloc sRet = ⟨-EIO_code, jsk, 0⟩ := by
  unfold j1939_sk_send_multi
  rw [if_pos ⟨hdone, hmismatch⟩]

/-- C5 witness: 5 of 12 bytes done, continuation of 4 bytes is rejected. -/
theorem j1939_sk_send_multi_continuation_mismatch_witness :
    j1939_sk_send_multi contJsk 4 allocAfterFirst 0 = ⟨-EIO_code, contJsk, 0⟩ :=
  j1939_sk_send_multi_continuation_mismatch contJsk 4 allocAfterFirst 0
    (by decide) (by decide)

/-! ## Claim C7 -/

/-- C7 counterexample: with F = [{pgn = 1, pgn_mask = 0, rest 0}] the
claim's predicate (entry fields taken verbatim) accepts no frame at all,
but the installed filter accepts the all-zero probe frame, because the
install pre-masked the entry's pgn to 0. -/
theorem j1939_sk_match_filter_unmasked_counterexample :
    (j1939_sk_setsockopt_filter j1939_sk_init filterListF).1 = 0 ∧
    j1939_sk_match_filter (j1939_sk_setsockopt_filter j1939_sk_init filterListF).2
      filterProbe = true ∧
    j1939_filter_pass_claim filterListF filterProbe = false := by
  decide

/-- C7 (amended): after installing F (within the length cap), a probe frame
passes the user-filter stage iff the claim's predicate holds for the
pre-masked list: F empty, or some entry m with (pgn & m.pgn_mask) =
(m.pgn & m.pgn_mask), (src_addr & m.addr_mask) = (m.addr & m.addr_mask) and
(src_NAME & m.name_mask) = (m.name & m.name_mask). -/
theorem j1939_sk_match_filter_premasked (jsk : j1939_sock) (F : List j1939_filter)
    (skcb : j1939_addr) (hlen : F.length ≤ J1939_FILTER_MAX) :
    j1939_sk_match_filter (j1939_sk_setsockopt_filter jsk F).2 skcb =
      j1939_filter_pass_claim (F.map j1939_filter_premask) skcb := by
  have h : ¬(J1939_FILTER_MAX < F.length) := Nat.not_lt.mpr hlen
  simp only [j1939_sk_setsockopt_filter, if_neg h, j1939_sk_match_filter,
    j1939_filter_pass_claim]

/-- C7 witness: the amended statement at the concrete list filterListF. -/
theorem j1939_sk_match_filter_premasked_witness :
    j1939_sk_match_filter (j1939_sk_setsockopt_filter j1939_sk_init filterListF).2
      filterProbe =
      j1939_filter_pass_claim (filterListF.map j1939_filter_premask) filterProbe :=
  j1939_sk_match_filter_premasked j1939_sk_init filterListF filterProbe (by decide)

/-! ## Claim C1 -/

/-- C1 counterexample: a BOUND PROMISC endpoint with a valid PGN receive
filter (0x100) receives a frame with a different PGN (0x200); delivery does
not require the PGN predicate once PROMISC is set, contrary to the claim. -/
theorem j1939_sk_recv_promisc_counterexample :
    j1939_sk_recv_one promiscJsk 1 probeFrame false = true ∧
    j1939_pgn_is_valid promiscJsk.pgn_rx_filter = true ∧
    promiscJsk.pgn_rx_filter ≠ probeFrame.pgn ∧
    promiscJsk.state &&& J1939_SOCK_PROMISC ≠ 0 := by
  decide

/-- C1 (amended): PROMISC exempts the whole of j1939_sk_match_dst, the
source match and the PGN receive filter included, not only the
destination-match step: match_dst is identically true for a PROMISC
endpoint, and such an endpoint receives a frame iff it is BOUND or
CONNECTED, bound to the frame's interface, past the own-message gate, and
past the user filter list. -/
theorem j1939_sk_recv_promisc_bypasses_match_dst
    (jsk : j1939_sock) (skb_ifindex : Nat) (skcb : j1939_addr) (own : Bool)
    (h : jsk.state &&& J1939_SOCK_PROMISC ≠ 0) :
    j1939_sk_match_dst jsk skcb = true ∧
    (j1939_sk_recv_one jsk skb_ifindex skcb own = true ↔
      (jsk.state &&& (J1939_SOCK_BOUND ||| J1939_SOCK_CONNECTED) ≠ 0 ∧
       jsk.ifindex = skb_ifindex ∧
       (own = true → jsk.state &&& J1939_SOCK_RECV_OWN ≠ 0) ∧
       j1939_sk_match_filter jsk skcb = true)) := by
  have hdst : j1939_sk_match_dst jsk skcb = true := by
    unfold j1939_sk_match_dst
    rw [if_pos h]
  refine ⟨hdst, ?_⟩
  unfold j1939_sk_recv_one
  rw [hdst]
  split_ifs with h1 h2 h3 h4 <;> simp_all

/-- C1 witness: the amended statement at the concrete PROMISC endpoint. -/
theorem j1939_sk_recv_promisc_bypasses_match_dst_witness :
    j1939_sk_match_dst promiscJsk probeFrame = true ∧
    (j1939_sk_recv_one promiscJsk 1 probeFrame false = true ↔
      (promiscJsk.state &&& (J1939_SOCK_BOUND ||| J1939_SOCK_CONNECTED) ≠ 0 ∧
       promiscJsk.ifindex = 1 ∧
       (false = true → promiscJsk.state &&& J1939_SOCK_RECV_OWN ≠ 0) ∧
       j1939_sk_match_filter promiscJsk probeFrame = true)) :=
  j1939_sk_recv_promisc_bypasses_match_dst promiscJsk 1 probeFrame false (by decide)

/-! ## Claim C6 -/

/-- C6 (confirmed): a send on an endpoint that is not BOUND fails with
-EBADFD; a send with no source set (source NAME 0 and source address 0xFE)
fails with -EBADFD; and a send whose resolved target is broadcast - whether
from a (well-formed) supplied destination or from the bound/connected peer -
fails with -EACCES when SOCK_BROADCAST is off.  All three rejections happen
in j1939_sk_sendmsg before any frame is handed to a send path. -/
theorem j1939_sk_sendmsg_precondition_errors
    (jsk : j1939_sock) (dest : Option MsgDest) (size : Nat) (env : SendmsgEnv) :
    (jsk.state &&& J1939_SOCK_BOUND = 0 →
      j1939_sk_sendmsg_path jsk dest size env = .err (-EBADFD)) ∧
    (jsk.state &&& J1939_SOCK_BOUND ≠ 0 → jsk.addr.src_name = 0 →
      jsk.addr.sa = J1939_NO_ADDR →
      j1939_sk_sendmsg_path jsk dest size env = .err (-EBADFD)) ∧
    (∀ a : MsgDest, dest = some a →
      jsk.state &&& J1939_SOCK_BOUND ≠ 0 →
      ¬(jsk.addr.src_name = 0 ∧ jsk.addr.sa = J1939_NO_ADDR) →
      J1939_MIN_NAMELEN ≤ a.namelen → a.family = AF_CAN →
      (a.ifindex = 0 ∨ a.ifindex = jsk.ifindex) →
      ¬(j1939_pgn_is_valid a.pgn = true ∧ j1939_pgn_is_clean_pdu a.pgn = false) →
      a.name = 0 → a.addr = J1939_NO_ADDR → jsk.sk_broadcast = false →
      j1939_sk_sendmsg_path jsk dest size env = .err (-EACCES)) ∧
    (dest = none →
      jsk.state &&& J1939_SOCK_BOUND ≠ 0 →
      ¬(jsk.addr.src_name = 0 ∧ jsk.addr.sa = J1939_NO_ADDR) →
      jsk.addr.dst_name = 0 → jsk.addr.da = J1939_NO_ADDR → jsk.sk_broadcast = false →
      j1939_sk_sendmsg_path jsk dest size env = .err (-EACCES)) := by
  refine ⟨?_, ?_, ?_, ?_⟩
  · intro h
    unfold j1939_sk_sendmsg_path
    rw [if_pos h]
  · intro h1 h2 h3
    unfold j1939_sk_sendmsg_path
    rw [if_neg h1, if_pos ⟨h2, h3⟩]
  · rintro a rfl h1 h2 h3 h4 h5 h6 h7 h8 h9
    unfold j1939_sk_sendmsg_path
    rw [if_neg h1, if_neg h2]
    dsimp only
    have hn : ¬(a.namelen < J1939_MIN_NAMELEN) := by omega
    have hf : ¬(a.family ≠ AF_CAN) := by simp [h4]
    have hi : ¬(a.ifindex ≠ 0 ∧ a.ifindex ≠ jsk.ifindex) := by
      rcases h5 with h | h <;> simp [h]
    have hp : ¬((j1939_pgn_is_valid a.pgn && !(j1939_pgn_is_clean_pdu a.pgn)) = true) := by
      simp only [Bool.and_eq_true, Bool.not_eq_true']
      exact h6
    rw [if_neg hn, if_neg hf, if_neg hi, if_neg hp, if_pos ⟨h7, h8, h9⟩]
  · rintro rfl h1 h2 h3 h4 h5
    unfold j1939_sk_sendmsg_path
    rw [if_neg h1, if_neg h2]
    dsimp only
    rw [if_pos ⟨h3, h4, h5⟩]

/-- C6 witness: the three rejections at concrete endpoints - unbound, bound
without source, supplied broadcast destination, and broadcast peer. -/
theorem j1939_sk_sendmsg_precondition_errors_witness :
    j1939_sk_sendmsg_path j1939_sk_init none 3 ⟨true, true⟩ = .err (-EBADFD) ∧
    j1939_sk_sendmsg_path noSrcJsk none 3 ⟨true, true⟩ = .err (-EBADFD) ∧
    j1939_sk_sendmsg_path boundPeerJsk (some bcastDest) 3 ⟨true, true⟩ = .err (-EACCES) ∧
    j1939_sk_sendmsg_path noPeerJsk none 3 ⟨true, true⟩ = .err (-EACCES) :=
  ⟨(j1939_sk_sendmsg_precondition_errors j1939_sk_init none 3 ⟨true, true⟩).1
      (by decide),
   (j1939_sk_sendmsg_precondition_errors noSrcJsk none 3 ⟨true, true⟩).2.1
      (by decide) (by decide) (by decide),
   (j1939_sk_sendmsg_precondition_errors boundPeerJsk (some bcastDest) 3
        ⟨true, true⟩).2.2.1 bcastDest rfl (by decide) (by decide) (by decide)
      (by decide) (Or.inr (by decide)) (by decide) (by decide) (by decide) (by decide),
   (j1939_sk_sendmsg_precondition_errors noPeerJsk none 3 ⟨true, true⟩).2.2.2 rfl
      (by decide) (by decide) (by decide) (by decide) (by decide)⟩

/-! ## Claim C8 -/

/-- Helper: a send either reaches the size dispatch or is rejected with an
error. -/
theorem j1939_sk_sendmsg_path_cases
    (jsk : j1939_sock) (dest : Option MsgDest) (size : Nat) (env : SendmsgEnv) :
    j1939_sk_sendmsg_path jsk dest size env = j1939_sk_sendmsg_dispatch size env ∨
    ∃ e : Int, j1939_sk_sendmsg_path jsk dest size env = .err e := by
  unfold j1939_sk_sendmsg_path
  rcases dest with _ | a <;> dsimp only
  · split_ifs <;> first | (left; rfl) | (right; exact ⟨_, rfl⟩)
  · split_ifs <;> first | (left; rfl) | (right; exact ⟨_, rfl⟩)

/-- C8 (confirmed): whenever a send passes every precondition check (it is
not rejected with an error), the dispatch is by payload size alone: at most
8 bytes is sent on the single-frame path, 9 bytes or more on the segmented
transport-protocol path. -/
theorem j1939_sk_sendmsg_dispatch_by_size
    (jsk : j1939_sock) (dest : Option MsgDest) (size : Nat) (env : SendmsgEnv)
    (h : ∀ e : Int, j1939_sk_sendmsg_path jsk dest size env ≠ .err e) :
    (size ≤ 8 → j1939_sk_sendmsg_path jsk dest size env = .single) ∧
    (8 < size → j1939_sk_sendmsg_path jsk dest size env = .multi) := by
  rcases j1939_sk_sendmsg_path_cases jsk dest size env with key | ⟨e, he⟩
  · by_cases c1 : env.ndev_exists = false
    · exact absurd (key.trans (by unfold j1939_sk_sendmsg_dispatch; rw [if_pos c1]))
        (h _)
    · by_cases c2 : env.priv_exists = false
      · exact absurd (key.trans
          (by unfold j1939_sk_sendmsg_dispatch; rw [if_neg c1, if_pos c2])) (h _)
      · constructor
        · intro hs
          rw [key]
          unfold j1939_sk_sendmsg_dispatch
          rw [if_neg c1, if_neg c2, if_neg (by omega)]
        · intro hs
          rw [key]
          unfold j1939_sk_sendmsg_dispatch
          rw [if_neg c1, if_neg c2, if_pos hs]
  · exact absurd he (h e)

/-- C8 witness: on a bound endpoint with a unicast peer, a send of exactly
8 bytes is single-frame and a send of 9 bytes is segmented. -/
theorem j1939_sk_sendmsg_dispatch_by_size_witness :
    j1939_sk_sendmsg_path boundPeerJsk none 8 ⟨true, true⟩ = .single ∧
    j1939_sk_sendmsg_path boundPeerJsk none 9 ⟨true, true⟩ = .multi :=
  ⟨(j1939_sk_sendmsg_dispatch_by_size boundPeerJsk none 8 ⟨true, true⟩ (fun e he => by
      have hs : j1939_sk_sendmsg_path boundPeerJsk none 8 ⟨true, true⟩ = .single := by
        decide
      rw [hs] at he
      exact SendPath.noConfusion he)).1 (by decide),
   (j1939_sk_sendmsg_dispatch_by_size boundPeerJsk none 9 ⟨true, true⟩ (fun e he => by
      have hm : j1939_sk_sendmsg_path boundPeerJsk none 9 ⟨true, true⟩ = .multi := by
        decide
      rw [hm] at he
      exact SendPath.noConfusion he)).2 (by decide)⟩

/-! ## Claim C2 -/

/-- Helper: getsockname (peer = false) always reports the local side. -/
theorem j1939_sk_getname_local (jsk : j1939_sock) :
    j1939_sk_getname jsk false = .ok (j1939_sk_sock2sockaddr_can jsk false) := by
  unfold j1939_sk_getname
  rw [if_neg (by simp)]

/-- C2 counterexample: bind of bindAddrX (whose PGN 0x12300 is valid)
succeeds, yet getsockname reports the "no pgn" placeholder, not
bindAddrX.pgn - bind stores the requested PGN only as the receive filter,
never into the address reported by getsockname. -/
theorem j1939_sk_bind_getname_pgn_counterexample :
    (j1939_sk_bind freshEndpoint bindAddrX J1939_MIN_NAMELEN bindEnvOk).1 = 0 ∧
    j1939_pgn_is_valid bindAddrX.pgn = true ∧
    j1939_sk_getname boundEndpoint.jsk false =
      .ok { family := AF_CAN, ifindex := 1, name := 77, addr := 0x10,
            pgn := J1939_NO_PGN } ∧
    J1939_NO_PGN ≠ bindAddrX.pgn := by
  refine ⟨by decide, by decide, ?_, by decide⟩
  rw [j1939_sk_getname_local]
  have h : j1939_sk_sock2sockaddr_can boundEndpoint.jsk false =
      { family := AF_CAN, ifindex := 1, name := 77, addr := 0x10,
        pgn := J1939_NO_PGN } := by
    decide
  rw [h]

/-- Helper: the common tail of bind records X.name/X.addr as the local
side, stores X.pgn (when valid) as the receive filter, and leaves ifindex
and the transmit PGN untouched, in every outcome of the local-ECU step. -/
theorem j1939_sk_bind_common_getname (st : EndpointState) (X : SockAddrCan)
    (env : BindEnv) :
    j1939_sk_sock2sockaddr_can ((j1939_sk_bind_common st X env).2).jsk false =
      { family := AF_CAN, ifindex := st.jsk.ifindex, name := X.name, addr := X.addr,
        pgn := st.jsk.addr.pgn } ∧
    (j1939_pgn_is_valid X.pgn = true →
      ((j1939_sk_bind_common st X env).2).jsk.pgn_rx_filter = X.pgn) := by
  have hn : ¬(false = true) := by simp
  unfold j1939_sk_bind_common j1939_sk_bind_finish j1939_sk_sock2sockaddr_can
  rw [if_neg hn, if_neg hn]
  by_cases hv : j1939_pgn_is_valid X.pgn = true
  · rw [if_pos hv]
    split_ifs <;> dsimp only <;> exact ⟨rfl, fun _ => rfl⟩
  · rw [if_neg hv]
    split_ifs <;> dsimp only <;> exact ⟨rfl, fun hx => absurd hx hv⟩

/-- C2 (amended): after a successful bind of X, getsockname reports family
AF_CAN, interface index X.ifindex, NAME X.name and address X.addr, but its
PGN field reports the endpoint's transmit PGN (jsk.addr.pgn), which bind
leaves unchanged; X.pgn, when valid, is stored as the PGN receive filter
instead.  For a never-connected endpoint the reported PGN is therefore the
"no pgn" placeholder, not X.pgn. -/
theorem j1939_sk_bind_getname_local_side
    (st : EndpointState) (X : SockAddrCan) (len : Nat) (env : BindEnv)
    (h : (j1939_sk_bind st X len env).1 = 0) :
    j1939_sk_getname ((j1939_sk_bind st X len env).2).jsk false =
      .ok { family := AF_CAN, ifindex := X.ifindex, name := X.name, addr := X.addr,
            pgn := st.jsk.addr.pgn } ∧
    (j1939_pgn_is_valid X.pgn = true →
      ((j1939_sk_bind st X len env).2).jsk.pgn_rx_filter = X.pgn) := by
  rw [j1939_sk_getname_local]
  unfold j1939_sk_bind at h ⊢
  by_cases c1 : j1939_sk_sanity_check (some X) len ≠ 0
  · rw [if_pos c1] at h
    exact absurd h c1
  · rw [if_neg c1] at h ⊢
    by_cases c2 : env.ndev_exists = false
    · rw [if_pos c2] at h
      dsimp only at h
      exact absurd h (by decide)
    · rw [if_neg c2] at h ⊢
      by_cases c3 : st.jsk.state &&& J1939_SOCK_BOUND ≠ 0
      · rw [if_pos c3] at h ⊢
        by_cases c4 : st.jsk.ifindex ≠ X.ifindex
        · rw [if_pos c4] at h
          dsimp only at h
          exact absurd h (by decide)
        · rw [if_neg c4] at h ⊢
          have hix : st.jsk.ifindex = X.ifindex := by omega
          obtain ⟨ha, hb⟩ := j1939_sk_bind_common_getname
            { st with ecuClaims := st.ecuClaims - 1 } X env
          dsimp only at ha hb
          rw [ha, hix]
          exact ⟨rfl, hb⟩
      · rw [if_neg c3] at h ⊢
        by_cases c5 : env.ndev_is_can = false
        · rw [if_pos c5] at h
          dsimp only at h
          exact absurd h (by decide)
        · rw [if_neg c5] at h ⊢
          by_cases c6 : env.netdev_start_ret ≠ 0
          · rw [if_pos c6] at h
            dsimp only at h
            exact absurd h c6
          · rw [if_neg c6] at h ⊢
            obtain ⟨ha, hb⟩ := j1939_sk_bind_common_getname
              { st with jsk := { st.jsk with ifindex := X.ifindex } } X env
            dsimp only at ha hb
            rw [ha]
            exact ⟨rfl, hb⟩

/-- C2 witness: the amended statement at the concrete first bind. -/
theorem j1939_sk_bind_getname_local_side_witness :
    j1939_sk_getname boundEndpoint.jsk false =
      .ok { family := AF_CAN, ifindex := bindAddrX.ifindex, name := bindAddrX.name,
            addr := bindAddrX.addr, pgn := freshEndpoint.jsk.addr.pgn } ∧
    (j1939_pgn_is_valid bindAddrX.pgn = true →
      boundEndpoint.jsk.pgn_rx_filter = bindAddrX.pgn) :=
  j1939_sk_bind_getname_local_side freshEndpoint bindAddrX J1939_MIN_NAMELEN bindEnvOk
    (by decide)

/-! ## Claim C3 -/

/-- C3 (code bug exhibit): a first bind establishes the BOUND invariant
(listed once, exactly one local-ECU claim); a rebind of the same address on
the same interface whose local-ECU acquisition fails returns the error but
leaves the endpoint BOUND and listed with zero claims; likewise a
netdev-event with ENODEV releases the claim of a still-BOUND, still-listed
endpoint. -/
theorem j1939_sk_bind_rebind_ecu_failure_breaks_invariant :
    ((j1939_sk_bind freshEndpoint bindAddrX J1939_MIN_NAMELEN bindEnvOk).1 = 0 ∧
     boundEndpoint.jsk.state &&& J1939_SOCK_BOUND ≠ 0 ∧
     boundEndpoint.inList = true ∧
     boundEndpoint.ecuClaims = 1) ∧
    (reboundResult.1 = -EADDRINUSE ∧
     reboundResult.2.jsk.state &&& J1939_SOCK_BOUND ≠ 0 ∧
     reboundResult.2.inList = true ∧
     reboundResult.2.ecuClaims = 0) ∧
    ((j1939_sk_netdev_event boundEndpoint ENODEV).jsk.state &&& J1939_SOCK_BOUND ≠ 0 ∧
     (j1939_sk_netdev_event boundEndpoint ENODEV).inList = true ∧
     (j1939_sk_netdev_event boundEndpoint ENODEV).ecuClaims = 0) := by
  decide

/-! ## Claim C4 -/

/-- Helper: the segment loop only shrinks todo, and advances done by
exactly the number of bytes it consumed from todo. -/
theorem send_multi_loop_progress (alloc : Nat → Int) (sRet : Int) (fuel : Nat) :
    ∀ (hs : Bool) (done todo i : Nat),
      (send_multi_loop alloc sRet fuel hs done todo i).todo ≤ todo ∧
      (send_multi_loop alloc sRet fuel hs done todo i).done
        = done + (todo - (send_multi_loop alloc sRet fuel hs done todo i).todo) := by
  induction fuel with
  | zero =>
    intro hs done todo i
    constructor <;> simp [send_multi_loop]
  | succ n ih =>
    intro hs done todo i
    by_cases h0 : todo = 0
    · constructor <;> simp [send_multi_loop, h0]
    · unfold send_multi_loop
      dsimp only
      rw [if_neg h0]
      by_cases ha : alloc i ≠ 0
      · rw [if_pos ha]
        constructor <;> dsimp only <;> omega
      · rw [if_neg ha]
        by_cases hb : hs = false ∧ sRet ≠ 0
        · rw [if_pos hb]
          constructor <;> dsimp only <;> omega
        · rw [if_neg hb]
          have hseg : (if J1939_MAX_TP_PACKET_SIZE < todo
              then J1939_MAX_TP_PACKET_SIZE else todo) ≤ todo := by
            split_ifs with hlt
            · omega
            · exact le_refl todo
          obtain ⟨iha, ihb⟩ := ih true
            (done + (if J1939_MAX_TP_PACKET_SIZE < todo
              then J1939_MAX_TP_PACKET_SIZE else todo))
            (todo - (if J1939_MAX_TP_PACKET_SIZE < todo
              then J1939_MAX_TP_PACKET_SIZE else todo)) (i + 1)
          constructor
          · omega
          · omega

/-- C4 (confirmed): the result-code contract of the segmented send.  With
the continuation-size precondition satisfied (so the -EIO path is not
taken): if the loop queued every segment the call returns size and resets
done_size to 0; if the per-segment allocation broke the loop with -EAGAIN
or -ERESTARTSYS after partial progress the call returns the number of bytes
queued (size - todo) and done_size stays nonzero (mid-datagram); on any
other loop error, and on any session-path failure, the call returns that
error and resets done_size to 0. -/
theorem j1939_sk_send_multi_result_contract
    (jsk : j1939_sock) (size : Nat) (alloc : Nat → Int) (sRet : Int)
    (hok : jsk.etp_tx_done_size = 0 ∨
           jsk.etp_tx_complete_size = jsk.etp_tx_done_size + size) :
    ((send_multi_engine jsk size alloc sRet).exit = .completed →
      (j1939_sk_send_multi jsk size alloc sRet).ret = (size : Int) ∧
      (j1939_sk_send_multi jsk size alloc sRet).jsk.etp_tx_done_size = 0) ∧
    (∀ e : Int, (send_multi_engine jsk size alloc sRet).exit = .brk e →
      (e = -EAGAIN ∨ e = -ERESTARTSYS) →
      (send_multi_engine jsk size alloc sRet).todo ≠ size →
      (j1939_sk_send_multi jsk size alloc sRet).ret
        = (size : Int) - ((send_multi_engine jsk size alloc sRet).todo : Int) ∧
      (j1939_sk_send_multi jsk size alloc sRet).jsk.etp_tx_done_size ≠ 0) ∧
    (∀ e : Int, (send_multi_engine jsk size alloc sRet).exit = .brk e →
      ¬(e = -EAGAIN ∨ e = -ERESTARTSYS) →
      (j1939_sk_send_multi jsk size alloc sRet).ret = e ∧
      (j1939_sk_send_multi jsk size alloc sRet).jsk.etp_tx_done_size = 0) ∧
    (∀ e : Int, (send_multi_engine jsk size alloc sRet).exit = .abort e →
      (j1939_sk_send_multi jsk size alloc sRet).ret = e ∧
      (j1939_sk_send_multi jsk size alloc sRet).jsk.etp_tx_done_size = 0) := by
  have hcond : ¬(jsk.etp_tx_done_size ≠ 0 ∧
      jsk.etp_tx_complete_size ≠ jsk.etp_tx_done_size + size) := by
    rcases hok with h | h
    · intro hx
      exact hx.1 h
    · intro hx
      exact hx.2 h
  have hprog : (send_multi_engine jsk size alloc sRet).todo ≤ size ∧
      (send_multi_engine jsk size alloc sRet).done
        = jsk.etp_tx_done_size + (size - (send_multi_engine jsk size alloc sRet).todo) :=
    send_multi_loop_progress alloc sRet size false jsk.etp_tx_done_size size 0
  unfold j1939_sk_send_multi
  rw [if_neg hcond]
  dsimp only
  rcases hE : (send_multi_engine jsk size alloc sRet).exit with _ | e' | e'
  · dsimp only
    refine ⟨fun _ => ⟨rfl, rfl⟩, ?_, ?_, ?_⟩ <;> intro e heq <;>
      exact LoopExit.noConfusion heq
  · dsimp only
    refine ⟨fun heq => LoopExit.noConfusion heq, ?_, ?_,
            fun e heq => LoopExit.noConfusion heq⟩
    · intro e heq h2 h3
      injection heq with he
      subst he
      rw [if_pos (Or.symm h2), if_pos h3]
      refine ⟨rfl, ?_⟩
      dsimp only
      omega
    · intro e heq h2
      injection heq with he
      subst he
      rw [if_neg (fun hx => h2 (Or.symm hx))]
      exact ⟨rfl, rfl⟩
  · dsimp only
    refine ⟨fun heq => LoopExit.noConfusion heq, fun e heq => LoopExit.noConfusion heq,
            fun e heq => LoopExit.noConfusion heq, ?_⟩
    intro e heq
    injection heq with he
    subst he
    exact ⟨rfl, rfl⟩

/-- C4 witness: a fresh 2000-byte datagram whose first 1785-byte segment is
queued and whose second allocation reports -EAGAIN: the call returns 1785
and the endpoint stays mid-datagram. -/
theorem j1939_sk_send_multi_result_contract_witness :
    (j1939_sk_send_multi j1939_sk_init 2000 allocAfterFirst 0).ret
      = (2000 : Int) - ((send_multi_engine j1939_sk_init 2000 allocAfterFirst 0).todo : Int) ∧
    (j1939_sk_send_multi j1939_sk_init 2000 allocAfterFirst 0).jsk.etp_tx_done_size ≠ 0 :=
  (j1939_sk_send_multi_result_contract j1939_sk_init 2000 allocAfterFirst 0
      (Or.inl rfl)).2.1 (-11) (by decide) (Or.inl (by decide)) (by decide)
